import Mathlib

/-!
Shallow embedding of the TL-MBOX transport layer of
`embassy-stm32/src/tl_mbox/mod.rs`: the shared-memory descriptor tables,
the `TlMbox::init` initialization sequence, the wireless-firmware
descriptor accessors, and the IPCC interrupt dispatch logic.

Machine pointers are modelled as `Nat` addresses; `u32` words as `Nat`
(callers keep them below `2 ^ 32`); byte buffers as `List Nat`.
The submodules `sys`, `ble`, `mm`, `channels`, `cmd`, `evt` and
`unsafe_linked_list` of `tl_mbox` are not part of the provided sources;
where a definition depends on them it is modelled from the specification
and says so in its doc comment.
-/

/-- A node of the intrusive linked list (`unsafe_linked_list::LinkedListNode`).
Modelled from the spec: two machine-pointer-sized fields `next` and `prev`
living at the start of every queued packet; a sentinel whose `next` and `prev`
point to itself is an empty ring. -/
structure LinkedListNode where
  next : Nat
  prev : Nat
  deriving DecidableEq

/-- A sentinel initialized as a singleton ring: `next` and `prev` both point
to the node itself (its own address `a`). -/
def LinkedListNode.selfRing (a : Nat) : LinkedListNode := ⟨a, a⟩

/-- `TL_PACKET_HEADER_SIZE = size_of::<PacketHeader>()` where
`PacketHeader = LinkedListNode`: two 32-bit pointers on the 32-bit
STM32WB target, hence 8 bytes. -/
def TL_PACKET_HEADER_SIZE : Nat := 8

/-- `TL_EVT_HEADER_SIZE`: kind, event code, length bytes. -/
def TL_EVT_HEADER_SIZE : Nat := 3

/-- `TL_CS_EVT_SIZE = size_of::<CsEvt>()`. Modelled from the spec: `evt.rs`
is not under the provided sources; the command-status event carries a
status byte, a number-of-commands byte and a 16-bit command code, 4 bytes
in total. No claim depends on the exact value. -/
def TL_CS_EVT_SIZE : Nat := 4

/-- `CFG_TL_BLE_EVT_QUEUE_LENGTH`. -/
def CFG_TL_BLE_EVT_QUEUE_LENGTH : Nat := 5

/-- `CFG_TL_BLE_MOST_EVENT_PAYLOAD_SIZE`. -/
def CFG_TL_BLE_MOST_EVENT_PAYLOAD_SIZE : Nat := 255

/-- `TL_BLE_EVENT_FRAME_SIZE = TL_EVT_HEADER_SIZE + CFG_TL_BLE_MOST_EVENT_PAYLOAD_SIZE`. -/
def TL_BLE_EVENT_FRAME_SIZE : Nat := TL_EVT_HEADER_SIZE + CFG_TL_BLE_MOST_EVENT_PAYLOAD_SIZE

/-- `const fn divc(x: usize, y: usize) -> usize { (x + y - 1) / y }`. -/
def divc (x y : Nat) : Nat := (x + y - 1) / y

/-- `POOL_SIZE = CFG_TL_BLE_EVT_QUEUE_LENGTH * 4 * divc(TL_PACKET_HEADER_SIZE + TL_BLE_EVENT_FRAME_SIZE, 4)`. -/
def POOL_SIZE : Nat :=
  CFG_TL_BLE_EVT_QUEUE_LENGTH * 4 * divc (TL_PACKET_HEADER_SIZE + TL_BLE_EVENT_FRAME_SIZE) 4

/-- Size of `CS_BUFFER`: `TL_PACKET_HEADER_SIZE + TL_EVT_HEADER_SIZE + TL_CS_EVT_SIZE`. -/
def CS_BUFFER_SIZE : Nat := TL_PACKET_HEADER_SIZE + TL_EVT_HEADER_SIZE + TL_CS_EVT_SIZE

/-- Size of `SYS_SPARE_EVT_BUF` and `BLE_SPARE_EVT_BUF`:
`TL_PACKET_HEADER_SIZE + TL_EVT_HEADER_SIZE + 255`. -/
def SPARE_EVT_BUF_SIZE : Nat := TL_PACKET_HEADER_SIZE + TL_EVT_HEADER_SIZE + 255

/-- Size of `HCI_ACL_DATA_BUFFER`: `TL_PACKET_HEADER_SIZE + 5 + 251`
(the "magic" numbers from ST in the source). -/
def HCI_ACL_DATA_BUFFER_SIZE : Nat := TL_PACKET_HEADER_SIZE + 5 + 251

/-- Modelled from the spec: the ACL data packet after its list header is
`{kind: u8, handle: u16, length: u16, payload}` (`cmd.rs` is not under the
provided sources), so the fixed kind/handle/length fields occupy
`1 + 2 + 2 = 5` bytes. -/
def ACL_KIND_HANDLE_LENGTH_SIZE : Nat := 1 + 2 + 2

/-- Semantics of `bit_field::BitField::get_bits(lo..hi)` on a `u32`:
the Rust `Range` is exclusive at its upper end, so the result holds the
bits at positions `lo` to `hi - 1` of `v`. -/
def getBits (v lo hi : Nat) : Nat := (v % 2 ^ hi) / 2 ^ lo

/-- `SafeBootInfoTable`. -/
structure SafeBootInfoTable where
  version : Nat
  deriving DecidableEq

/-- `FusInfoTable`. -/
structure FusInfoTable where
  version : Nat
  memory_size : Nat
  fus_info : Nat
  deriving DecidableEq

/-- `WirelessFwInfoTable`: a version word, a memory-size word, an
info-stack word and a reserved word, each a `u32`. -/
structure WirelessFwInfoTable where
  version : Nat
  memory_size : Nat
  info_stack : Nat
  reserved : Nat
  deriving DecidableEq

/-- `version_major`: `(version.get_bits(24..31) & 0xff) as u8`. -/
def WirelessFwInfoTable.version_major (t : WirelessFwInfoTable) : Nat :=
  ((getBits t.version 24 31) &&& 0xff) % 256

/-- `version_minor`: `(version.get_bits(16..23) & 0xff) as u8`. -/
def WirelessFwInfoTable.version_minor (t : WirelessFwInfoTable) : Nat :=
  ((getBits t.version 16 23) &&& 0xff) % 256

/-- `subversion`: `(version.get_bits(8..15) & 0xff) as u8`. -/
def WirelessFwInfoTable.subversion (t : WirelessFwInfoTable) : Nat :=
  ((getBits t.version 8 15) &&& 0xff) % 256

/-- `flash_size`: `(memory_size.get_bits(0..7) & 0xff) as u8`. -/
def WirelessFwInfoTable.flash_size (t : WirelessFwInfoTable) : Nat :=
  ((getBits t.memory_size 0 7) &&& 0xff) % 256

/-- `sram2a_size`: `(memory_size.get_bits(24..31) & 0xff) as u8`. -/
def WirelessFwInfoTable.sram2a_size (t : WirelessFwInfoTable) : Nat :=
  ((getBits t.memory_size 24 31) &&& 0xff) % 256

/-- `sram2b_size`: `(memory_size.get_bits(16..23) & 0xff) as u8`. -/
def WirelessFwInfoTable.sram2b_size (t : WirelessFwInfoTable) : Nat :=
  ((getBits t.memory_size 16 23) &&& 0xff) % 256

/-- The value bits `hi:lo` (both bounds inclusive) of a word, as the code
documentation of `WirelessFwInfoTable` describes the packed fields
(for example `24 -> 31 = Version major`). -/
def bitsIncl (v lo hi : Nat) : Nat := (v % 2 ^ (hi + 1)) / 2 ^ lo

/-- `DeviceInfoTable`. -/
structure DeviceInfoTable where
  safe_boot_info_table : SafeBootInfoTable
  fus_info_table : FusInfoTable
  wireless_fw_info_table : WirelessFwInfoTable
  deriving DecidableEq

/-- `BleTable`: pointer fields as addresses. -/
structure BleTable where
  pcmd_buffer : Nat
  pcs_buffer : Nat
  pevt_queue : Nat
  phci_acl_data_buffer : Nat
  deriving DecidableEq

/-- `ThreadTable`. -/
structure ThreadTable where
  no_stack_buffer : Nat
  cli_cmd_rsp_buffer : Nat
  ot_cmd_rsp_buffer : Nat
  deriving DecidableEq

/-- `SysTable`. -/
structure SysTable where
  pcmd_buffer : Nat
  sys_queue : Nat
  deriving DecidableEq

/-- `LldTestTable`. -/
structure LldTestTable where
  cli_cmd_rsp_buffer : Nat
  m0_cmd_buffer : Nat
  deriving DecidableEq

/-- `BleLldTable`. -/
structure BleLldTable where
  cmd_rsp_buffer : Nat
  m0_cmd_buffer : Nat
  deriving DecidableEq

/-- `ZigbeeTable`. -/
structure ZigbeeTable where
  notif_m0_to_m4_buffer : Nat
  appli_cmd_m4_to_m0_buffer : Nat
  request_m0_to_m4_buffer : Nat
  deriving DecidableEq

/-- `MemManagerTable`. -/
structure MemManagerTable where
  spare_ble_buffer : Nat
  spare_sys_buffer : Nat
  ble_pool : Nat
  ble_pool_size : Nat
  pevt_free_buffer_queue : Nat
  traces_evt_pool : Nat
  traces_pool_size : Nat
  deriving DecidableEq

/-- `TracesTable`. -/
structure TracesTable where
  traces_queue : Nat
  deriving DecidableEq

/-- `Mac802_15_4Table`. -/
structure Mac802_15_4Table where
  pcmd_rsp_buffer : Nat
  pnotack_buffer : Nat
  evt_queue : Nat
  deriving DecidableEq

/-- `RefTable`: the reference table. Its fields are exactly the pointer
fields of the source struct, in source order. -/
structure RefTable where
  device_info_table : Nat
  ble_table : Nat
  thread_table : Nat
  sys_table : Nat
  mem_manager_table : Nat
  traces_table : Nat
  mac_802_15_4_table : Nat
  zigbee_table : Nat
  lld_tests_table : Nat
  ble_lld_table : Nat
  deriving DecidableEq

/-- All pointer fields of a `RefTable`, in declaration order. The source
struct has exactly these fields and no others. -/
def RefTable.pointerFields (r : RefTable) : List Nat :=
  [r.device_info_table, r.ble_table, r.thread_table, r.sys_table,
   r.mem_manager_table, r.traces_table, r.mac_802_15_4_table,
   r.zigbee_table, r.lld_tests_table, r.ble_lld_table]

/-- `CmdPacket`. Modelled from the spec: `{header: ILL, kind: u8,
opcode: u16, length: u8, payload}` (`cmd.rs` is not under the provided
sources); the payload array capacity is 255 bytes. -/
structure CmdPacket where
  header : LinkedListNode
  kind : Nat
  opcode : Nat
  length : Nat
  payload : List Nat
  deriving DecidableEq

/-- The static mutable items of the module: the reference table, the
MB_MEM1 descriptor tables, the host-local free list and the MB_MEM2
buffers,
in source order. -/
inductive TlStatic where
  | deviceInfoTable
  | bleTable
  | threadTable
  | lldTestsTable
  | bleLldTable
  | sysTable
  | memManagerTable
  | tracesTable
  | mac802_15_4Table
  | zigbeeTable
  | freeBuffQueue
  | localFreeBufQueue
  | csBuffer
  | evtQueue
  | systemEvtQueue
  | sysCmdBuf
  | evtPool
  | sysSpareEvtBuf
  | bleSpareEvtBuf
  | bleCmdBuffer
  | hciAclDataBuffer
  deriving DecidableEq

/-- Index of a static in the address map below. -/
def TlStatic.idx : TlStatic → Nat
  | .deviceInfoTable => 0
  | .bleTable => 1
  | .threadTable => 2
  | .lldTestsTable => 3
  | .bleLldTable => 4
  | .sysTable => 5
  | .memManagerTable => 6
  | .tracesTable => 7
  | .mac802_15_4Table => 8
  | .zigbeeTable => 9
  | .freeBuffQueue => 10
  | .localFreeBufQueue => 11
  | .csBuffer => 12
  | .evtQueue => 13
  | .systemEvtQueue => 14
  | .sysCmdBuf => 15
  | .evtPool => 16
  | .sysSpareEvtBuf => 17
  | .bleSpareEvtBuf => 18
  | .bleCmdBuffer => 19
  | .hciAclDataBuffer => 20

/-- Model of the linker placement: every static is a distinct object with
a fixed nonzero address. The MB_MEM1 and MB_MEM2 link sections live in
SRAM2 of the STM32WB (addresses near `0x2003_0000`), never at address 0,
and in Rust taking `as_ptr()` of a static never yields the null pointer.
The concrete spacing is immaterial; only distinctness and nonzeroness are
used. -/
def addrOf (t : TlStatic) : Nat := 0x20030000 + 0x100 * t.idx

/-- The full mutable state of the module: one field per static item. -/
structure MboxState where
  tl_ref_table : RefTable
  tl_device_info_table : DeviceInfoTable
  tl_ble_table : BleTable
  tl_thread_table : ThreadTable
  tl_lld_tests_table : LldTestTable
  tl_ble_lld_table : BleLldTable
  tl_sys_table : SysTable
  tl_mem_manager_table : MemManagerTable
  tl_traces_table : TracesTable
  tl_mac_802_15_4_table : Mac802_15_4Table
  tl_zigbee_table : ZigbeeTable
  free_buff_queue : LinkedListNode
  local_free_buf_queue : LinkedListNode
  cs_buffer : List Nat
  evt_queue : LinkedListNode
  system_evt_queue : LinkedListNode
  sys_cmd_buf : CmdPacket
  evt_pool : List Nat
  sys_spare_evt_buf : List Nat
  ble_spare_evt_buf : List Nat
  ble_cmd_buffer : CmdPacket
  hci_acl_data_buffer : List Nat
  deriving DecidableEq

/-- All-zero-bytes value of `SafeBootInfoTable` (`MaybeUninit::zeroed`). -/
def SafeBootInfoTable.zeroed : SafeBootInfoTable := ⟨0⟩

/-- All-zero-bytes value of `FusInfoTable`. -/
def FusInfoTable.zeroed : FusInfoTable := ⟨0, 0, 0⟩

/-- All-zero-bytes value of `WirelessFwInfoTable`. -/
def WirelessFwInfoTable.zeroed : WirelessFwInfoTable := ⟨0, 0, 0, 0⟩

/-- All-zero-bytes value of `DeviceInfoTable`. -/
def DeviceInfoTable.zeroed : DeviceInfoTable :=
  ⟨SafeBootInfoTable.zeroed, FusInfoTable.zeroed, WirelessFwInfoTable.zeroed⟩

/-- All-zero-bytes value of `BleTable`. -/
def BleTable.zeroed : BleTable := ⟨0, 0, 0, 0⟩

/-- All-zero-bytes value of `ThreadTable`. -/
def ThreadTable.zeroed : ThreadTable := ⟨0, 0, 0⟩

/-- All-zero-bytes value of `SysTable`. -/
def SysTable.zeroed : SysTable := ⟨0, 0⟩

/-- All-zero-bytes value of `LldTestTable`. -/
def LldTestTable.zeroed : LldTestTable := ⟨0, 0⟩

/-- All-zero-bytes value of `BleLldTable`. -/
def BleLldTable.zeroed : BleLldTable := ⟨0, 0⟩

/-- All-zero-bytes value of `ZigbeeTable`. -/
def ZigbeeTable.zeroed : ZigbeeTable := ⟨0, 0, 0⟩

/-- All-zero-bytes value of `MemManagerTable`. -/
def MemManagerTable.zeroed : MemManagerTable := ⟨0, 0, 0, 0, 0, 0, 0⟩

/-- All-zero-bytes value of `TracesTable`. -/
def TracesTable.zeroed : TracesTable := ⟨0⟩

/-- All-zero-bytes value of `Mac802_15_4Table`. -/
def Mac802_15_4Table.zeroed : Mac802_15_4Table := ⟨0, 0, 0⟩

/-- All-zero-bytes value of `RefTable`. -/
def RefTable.zeroed : RefTable := ⟨0, 0, 0, 0, 0, 0, 0, 0, 0, 0⟩

/-- All-zero-bytes value of `CmdPacket`. -/
def CmdPacket.zeroed : CmdPacket := ⟨⟨0, 0⟩, 0, 0, 0, List.replicate 255 0⟩

/-- An arbitrary concrete pre-`init` state (all statics zero / empty),
used as the explicit input of closed counterexamples and witnesses. -/
def mboxState0 : MboxState where
  tl_ref_table := RefTable.zeroed
  tl_device_info_table := DeviceInfoTable.zeroed
  tl_ble_table := BleTable.zeroed
  tl_thread_table := ThreadTable.zeroed
  tl_lld_tests_table := LldTestTable.zeroed
  tl_ble_lld_table := BleLldTable.zeroed
  tl_sys_table := SysTable.zeroed
  tl_mem_manager_table := MemManagerTable.zeroed
  tl_traces_table := TracesTable.zeroed
  tl_mac_802_15_4_table := Mac802_15_4Table.zeroed
  tl_zigbee_table := ZigbeeTable.zeroed
  free_buff_queue := ⟨0, 0⟩
  local_free_buf_queue := ⟨0, 0⟩
  cs_buffer := []
  evt_queue := ⟨0, 0⟩
  system_evt_queue := ⟨0, 0⟩
  sys_cmd_buf := CmdPacket.zeroed
  evt_pool := []
  sys_spare_evt_buf := []
  ble_spare_evt_buf := []
  ble_cmd_buffer := CmdPacket.zeroed
  hci_acl_data_buffer := []

/-- Modelled from the spec: IPCC channel assignments, CPU1 to CPU2
direction (`channels.rs` is not under the provided sources). Channel 2 is
the SYS command/response channel. -/
def IPCC_SYSTEM_CMD_RSP_CHANNEL : Nat := 2

/-- Modelled from the spec: CPU1 to CPU2 channel 4 is the memory-manager
release-buffer channel. -/
def IPCC_MM_RELEASE_BUFFER_CHANNEL : Nat := 4

/-- Modelled from the spec: CPU2 to CPU1 channel 1 is the BLE event
channel. -/
def IPCC_BLE_EVENT_CHANNEL : Nat := 1

/-- Modelled from the spec: CPU2 to CPU1 channel 2 is the SYS event
channel. -/
def IPCC_SYSTEM_EVENT_CHANNEL : Nat := 2

/-- Modelled from the spec: CPU2 to CPU1 channel 3 is the thread
notification channel, unused by this driver; it has no mapped handler. -/
def IPCC_THREAD_NOTIF_CHANNEL : Nat := 3

/-- The observable IPCC register state the dispatch code consults:
`is_rx_pending ch` is the RX pending bit of a CPU2-to-CPU1 channel, and
`is_tx_pending ch` means the CPU1-to-CPU2 channel is free (the external
IPCC driver contract of the spec). -/
structure Ipcc where
  is_rx_pending : Nat → Bool
  is_tx_pending : Nat → Bool

/-- Which handler an RX dispatch invokes. `todoMacro` stands for the
`todo!()` expression of the source, which panics with a
"not yet implemented" message when reached. -/
inductive RxAction where
  | sysEvtHandler
  | bleEvtHandler
  | todoMacro
  deriving DecidableEq

/-- Which handler a TX dispatch invokes; `todoMacro` as in `RxAction`. -/
inductive TxAction where
  | sysCmdEvtHandler
  | mmEvtHandler
  | todoMacro
  deriving DecidableEq

/-- `TlMbox::interrupt_ipcc_rx_handler`: if the SYS event channel is
pending, invoke `sys::Sys::evt_handler`; else if the BLE event channel is
pending, invoke `ble::Ble::evt_handler`; else `todo!()`. The codomain
records which handler is invoked (the handler bodies live in modules not
under the provided sources and are not needed by the claims). -/
def TlMbox.interrupt_ipcc_rx_handler (ipcc : Ipcc) : RxAction :=
  if ipcc.is_rx_pending IPCC_SYSTEM_EVENT_CHANNEL then
    RxAction.sysEvtHandler
  else if ipcc.is_rx_pending IPCC_BLE_EVENT_CHANNEL then
    RxAction.bleEvtHandler
  else
    RxAction.todoMacro

/-- `TlMbox::interrupt_ipcc_tx_handler`: if the SYS command-response
channel is free, invoke `sys::Sys::cmd_evt_handler`; else if the MM
release-buffer channel is free, invoke `mm::MemoryManager::evt_handler`;
else `todo!()`. -/
def TlMbox.interrupt_ipcc_tx_handler (ipcc : Ipcc) : TxAction :=
  if ipcc.is_tx_pending IPCC_SYSTEM_CMD_RSP_CHANNEL then
    TxAction.sysCmdEvtHandler
  else if ipcc.is_tx_pending IPCC_MM_RELEASE_BUFFER_CHANNEL then
    TxAction.mmEvtHandler
  else
    TxAction.todoMacro

/-- The bound IPCC_C1_RX interrupt handler,
`ReceiveInterruptHandler::on_interrupt`. Its body in the source is empty
(`unsafe fn on_interrupt() {}`), so whatever the IPCC state at interrupt
time, it invokes no handler: the result is `none` for every `ipcc`. -/
def ReceiveInterruptHandler.on_interrupt (_ipcc : Ipcc) : Option RxAction :=
  none

/-- The bound IPCC_C1_TX interrupt handler,
`TransmitInterruptHandler::on_interrupt`; its body is likewise empty. -/
def TransmitInterruptHandler.on_interrupt (_ipcc : Ipcc) : Option TxAction :=
  none

/-- The zeroing block of `TlMbox::init`: every MB_MEM1 descriptor table
and the MB_MEM2 buffers `EVT_POOL`, `SYS_SPARE_EVT_BUF`,
`BLE_SPARE_EVT_BUF`, `CS_BUFFER`, `BLE_CMD_BUFFER` and
`HCI_ACL_DATA_BUFFER` are assigned `MaybeUninit::zeroed()`, in source
order. (`SYS_CMD_BUF`, `FREE_BUFF_QUEUE`, `LOCAL_FREE_BUF_QUEUE`,
`EVT_QUEUE` and `SYSTEM_EVT_QUEUE` are not zeroed here.) -/
def MboxState.zeroPhase (s : MboxState) : MboxState :=
  { s with
    tl_sys_table := SysTable.zeroed
    tl_device_info_table := DeviceInfoTable.zeroed
    tl_ble_table := BleTable.zeroed
    tl_thread_table := ThreadTable.zeroed
    tl_mem_manager_table := MemManagerTable.zeroed
    tl_traces_table := TracesTable.zeroed
    tl_mac_802_15_4_table := Mac802_15_4Table.zeroed
    tl_zigbee_table := ZigbeeTable.zeroed
    tl_lld_tests_table := LldTestTable.zeroed
    tl_ble_lld_table := BleLldTable.zeroed
    evt_pool := List.replicate POOL_SIZE 0
    sys_spare_evt_buf := List.replicate SPARE_EVT_BUF_SIZE 0
    ble_spare_evt_buf := List.replicate SPARE_EVT_BUF_SIZE 0
    cs_buffer := List.replicate CS_BUFFER_SIZE 0
    ble_cmd_buffer := CmdPacket.zeroed
    hci_acl_data_buffer := List.replicate HCI_ACL_DATA_BUFFER_SIZE 0 }

/-- Modelled from the spec: `sys::Sys::new` (not under the provided
sources) initializes the `SYSTEM_EVT_QUEUE` sentinel as a singleton ring
and populates the SYS subtable with the addresses of the SYS command
buffer and the system event queue. -/
def Sys.new (s : MboxState) : MboxState :=
  { s with
    system_evt_queue := LinkedListNode.selfRing (addrOf TlStatic.systemEvtQueue)
    tl_sys_table :=
      ⟨addrOf TlStatic.sysCmdBuf, addrOf TlStatic.systemEvtQueue⟩ }

/-- Modelled from the spec: `ble::Ble::new` (not under the provided
sources) initializes the `EVT_QUEUE` sentinel as a singleton ring and
populates the BLE subtable with the addresses of the BLE command buffer,
the command-status buffer, the event queue and the ACL data buffer. -/
def Ble.new (s : MboxState) : MboxState :=
  { s with
    evt_queue := LinkedListNode.selfRing (addrOf TlStatic.evtQueue)
    tl_ble_table :=
      ⟨addrOf TlStatic.bleCmdBuffer, addrOf TlStatic.csBuffer,
       addrOf TlStatic.evtQueue, addrOf TlStatic.hciAclDataBuffer⟩ }

/-- Modelled from the spec: `mm::MemoryManager::new` (not under the
provided sources) initializes the `FREE_BUFF_QUEUE` and
`LOCAL_FREE_BUF_QUEUE` sentinels as singleton rings and populates the
memory-manager subtable with the spare-buffer, pool and free-queue
addresses and the pool size. -/
def MemoryManager.new (s : MboxState) : MboxState :=
  { s with
    free_buff_queue := LinkedListNode.selfRing (addrOf TlStatic.freeBuffQueue)
    local_free_buf_queue := LinkedListNode.selfRing (addrOf TlStatic.localFreeBufQueue)
    tl_mem_manager_table :=
      ⟨addrOf TlStatic.bleSpareEvtBuf, addrOf TlStatic.sysSpareEvtBuf,
       addrOf TlStatic.evtPool, POOL_SIZE,
       addrOf TlStatic.freeBuffQueue, 0, 0⟩ }

/-- The handle returned by `TlMbox::init`; its `Sys`, `Ble` and
`MemoryManager` members carry no data of their own in this model. -/
structure TlMbox where
  _sys : Unit
  _ble : Unit
  _mm : Unit
  deriving DecidableEq

/-- `TlMbox::init`: first writes `TL_REF_TABLE` with the addresses of the
ten subordinate-table statics (the source record literal with `as_ptr()`
of each static), then runs the zeroing block, then constructs the `Sys`,
`Ble` and `MemoryManager` services (the commented-out interrupt wiring
performs no state change), and returns the `TlMbox` handle. There is no
guard of any kind: the body runs unconditionally on every call. -/
def TlMbox.init (s : MboxState) : MboxState × TlMbox :=
  let s1 : MboxState :=
    { s with
      tl_ref_table :=
        { device_info_table := addrOf TlStatic.deviceInfoTable
          ble_table := addrOf TlStatic.bleTable
          thread_table := addrOf TlStatic.threadTable
          sys_table := addrOf TlStatic.sysTable
          mem_manager_table := addrOf TlStatic.memManagerTable
          traces_table := addrOf TlStatic.tracesTable
          mac_802_15_4_table := addrOf TlStatic.mac802_15_4Table
          zigbee_table := addrOf TlStatic.zigbeeTable
          lld_tests_table := addrOf TlStatic.lldTestsTable
          ble_lld_table := addrOf TlStatic.bleLldTable } }
  let s2 := MboxState.zeroPhase s1
  let s3 := Sys.new s2
  let s4 := Ble.new s3
  let s5 := MemoryManager.new s4
  (s5, ⟨(), (), ()⟩)

/-- `TlMbox::wireless_fw_info`: reads the wireless-firmware descriptor of
the device-info table (through `TL_REF_TABLE.device_info_table`, which
after `init` is the address of the device-info static, so the read is
modelled directly on that static) and returns a copy when its version
word is nonzero, `None` when it is zero. -/
def TlMbox.wireless_fw_info (s : MboxState) : Option WirelessFwInfoTable :=
  let info := s.tl_device_info_table.wireless_fw_info_table
  if info.version ≠ 0 then some info else none

/-- Ghost trace state for counting constructions: the module state
together with the number of `TlMbox` values constructed so far. -/
structure TlWorld where
  state : MboxState
  constructed : Nat
  deriving DecidableEq

/-- `TlMbox.init` at the trace level: each completed call runs the body
on the state and constructs one more `TlMbox` value (the source body ends
by constructing and returning `TlMbox { _sys, _ble, _mm }` on every
call). -/
def TlMbox.initCounted (w : TlWorld) : TlWorld × TlMbox :=
  let r := TlMbox.init w.state
  (⟨r.fst, w.constructed + 1⟩, r.snd)

/-- A concrete IPCC state whose only raised bit is the RX pending bit of
the SYS event channel (channel 2 of the CPU2-to-CPU1 direction). -/
def ipccSysEvtPending : Ipcc := ⟨fun c => c == IPCC_SYSTEM_EVENT_CHANNEL, fun _c => false⟩

/-- A concrete IPCC state in which only the MM release-buffer channel is
free in the CPU1-to-CPU2 direction and no RX bit is pending. -/
def ipccMmFree : Ipcc := ⟨fun _c => false, fun c => c == IPCC_MM_RELEASE_BUFFER_CHANNEL⟩

/-- A concrete IPCC state whose only raised RX bit is on the thread
notification channel, which has no mapped handler. -/
def ipccThreadNotifPending : Ipcc := ⟨fun c => c == IPCC_THREAD_NOTIF_CHANNEL, fun _c => false⟩

/-- A concrete IPCC state with no RX bit pending and no TX channel free. -/
def ipccAllQuiet : Ipcc := ⟨fun _c => false, fun _c => false⟩

/-- A concrete state whose device-info table holds a populated
wireless-firmware descriptor (version word nonzero). -/
def mboxStateFwSample : MboxState :=
  { mboxState0 with
    tl_device_info_table :=
      { DeviceInfoTable.zeroed with
        wireless_fw_info_table := ⟨0x01020304, 0x10203040, 0, 0⟩ } }

/-- C1: the claim states that when a pending bit is set on a channel with
no mapped handler, the transport masks the unknown channel and continues
without panicking. The code instead reaches the `todo!()` else branch of
the dispatch, which panics: at an IPCC state whose only pending RX bit is
the thread notification channel (no mapped handler), the RX dispatch
evaluates to the `todo!()` arm, and likewise the TX dispatch when neither
the SYS command-response channel nor the MM release channel is free. -/
theorem C1_todo_branch_eval :
    ipccThreadNotifPending.is_rx_pending IPCC_THREAD_NOTIF_CHANNEL = true ∧
    TlMbox.interrupt_ipcc_rx_handler ipccThreadNotifPending = RxAction.todoMacro ∧
    TlMbox.interrupt_ipcc_tx_handler ipccAllQuiet = TxAction.todoMacro :=
  ⟨rfl, rfl, rfl⟩

/-- C2: the claim (and the doc comment in the source) states that
`version_major` decodes bits 31:24, `version_minor` bits 23:16,
`subversion` bits 15:8, `flash_size` bits 7:0, `sram2b_size` bits 23:16
and `sram2a_size` bits 31:24. The code calls `get_bits` with an
upper-exclusive `Range`, so each accessor drops the top bit of its field:
on words with that top bit set the accessor returns a value different
from the documented bit field, while on the spec's concrete example words
(whose field top bits are clear) the accessors do return the documented
values. -/
theorem C2_bitfield_eval :
    WirelessFwInfoTable.version_major ⟨0x80000000, 0, 0, 0⟩ = 0 ∧
    bitsIncl 0x80000000 24 31 = 0x80 ∧
    WirelessFwInfoTable.version_minor ⟨0x00800000, 0, 0, 0⟩ = 0 ∧
    bitsIncl 0x00800000 16 23 = 0x80 ∧
    WirelessFwInfoTable.subversion ⟨0x00008000, 0, 0, 0⟩ = 0 ∧
    bitsIncl 0x00008000 8 15 = 0x80 ∧
    WirelessFwInfoTable.flash_size ⟨0, 0x00000080, 0, 0⟩ = 0 ∧
    bitsIncl 0x00000080 0 7 = 0x80 ∧
    WirelessFwInfoTable.sram2b_size ⟨0, 0x00800000, 0, 0⟩ = 0 ∧
    WirelessFwInfoTable.sram2a_size ⟨0, 0x80000000, 0, 0⟩ = 0 ∧
    WirelessFwInfoTable.version_major ⟨0x01020304, 0, 0, 0⟩ = 1 ∧
    WirelessFwInfoTable.version_minor ⟨0x01020304, 0, 0, 0⟩ = 2 ∧
    WirelessFwInfoTable.subversion ⟨0x01020304, 0, 0, 0⟩ = 3 ∧
    WirelessFwInfoTable.sram2a_size ⟨0, 0x10203040, 0, 0⟩ = 0x10 ∧
    WirelessFwInfoTable.sram2b_size ⟨0, 0x10203040, 0, 0⟩ = 0x20 ∧
    WirelessFwInfoTable.flash_size ⟨0, 0x10203040, 0, 0⟩ = 0x40 := by
  decide

/-- C3 counterexample: the claim states that when the IPCC_C1_RX
interrupt fires, the bound handler invokes the SYS event handler if the
SYS event channel is pending. The bound handlers have empty bodies: at a
concrete IPCC state with the SYS event channel pending, the bound RX
handler invokes no handler at all (`none`, not the SYS event handler),
and the bound TX handler likewise invokes nothing when the MM release
channel is free. -/
theorem C3_counterexample :
    ipccSysEvtPending.is_rx_pending IPCC_SYSTEM_EVENT_CHANNEL = true ∧
    ReceiveInterruptHandler.on_interrupt ipccSysEvtPending = none ∧
    ipccMmFree.is_tx_pending IPCC_MM_RELEASE_BUFFER_CHANNEL = true ∧
    TransmitInterruptHandler.on_interrupt ipccMmFree = none ∧
    (none : Option RxAction) ≠ some RxAction.sysEvtHandler :=
  ⟨rfl, rfl, rfl, rfl, by decide⟩

/-- C3 (amended): the bound interrupt handlers have empty bodies and
invoke no handler; the dispatch logic lives in the currently unbound
functions `TlMbox::interrupt_ipcc_rx_handler` and
`TlMbox::interrupt_ipcc_tx_handler`, which do implement the described
priority: SYS event handler if the SYS event channel is pending, else BLE
event handler if the BLE event channel is pending; SYS command-completion
handling if the SYS command-response channel is free, else the MM release
handler if the MM release channel is free. -/
theorem C3_dispatch_amended : ∀ ipcc : Ipcc,
    ReceiveInterruptHandler.on_interrupt ipcc = none ∧
    TransmitInterruptHandler.on_interrupt ipcc = none ∧
    (ipcc.is_rx_pending IPCC_SYSTEM_EVENT_CHANNEL = true →
      TlMbox.interrupt_ipcc_rx_handler ipcc = RxAction.sysEvtHandler) ∧
    (ipcc.is_rx_pending IPCC_SYSTEM_EVENT_CHANNEL = false →
      ipcc.is_rx_pending IPCC_BLE_EVENT_CHANNEL = true →
      TlMbox.interrupt_ipcc_rx_handler ipcc = RxAction.bleEvtHandler) ∧
    (ipcc.is_tx_pending IPCC_SYSTEM_CMD_RSP_CHANNEL = true →
      TlMbox.interrupt_ipcc_tx_handler ipcc = TxAction.sysCmdEvtHandler) ∧
    (ipcc.is_tx_pending IPCC_SYSTEM_CMD_RSP_CHANNEL = false →
      ipcc.is_tx_pending IPCC_MM_RELEASE_BUFFER_CHANNEL = true →
      TlMbox.interrupt_ipcc_tx_handler ipcc = TxAction.mmEvtHandler) := by
  intro ipcc
  refine ⟨rfl, rfl, ?_, ?_, ?_, ?_⟩
  · intro h
    simp [TlMbox.interrupt_ipcc_rx_handler, h]
  · intro h1 h2
    simp [TlMbox.interrupt_ipcc_rx_handler, h1, h2]
  · intro h
    simp [TlMbox.interrupt_ipcc_tx_handler, h]
  · intro h1 h2
    simp [TlMbox.interrupt_ipcc_tx_handler, h1, h2]

/-- C3 witness: the amended dispatch facts at concrete IPCC states. -/
theorem C3_dispatch_amended_witness :
    TlMbox.interrupt_ipcc_rx_handler ipccSysEvtPending = RxAction.sysEvtHandler ∧
    TlMbox.interrupt_ipcc_tx_handler ipccMmFree = TxAction.mmEvtHandler :=
  ⟨(C3_dispatch_amended ipccSysEvtPending).2.2.1 (by decide),
   (C3_dispatch_amended ipccMmFree).2.2.2.2.2 (by decide) (by decide)⟩

/-- C4: for every state of the device-info table, `wireless_fw_info`
returns `none` iff the stored wireless-firmware version word is zero,
otherwise a copy of the descriptor; and after `init` (which zeroes the
device-info table) it returns `none`. -/
theorem C4_wireless_fw_info_iff : ∀ s : MboxState,
    (TlMbox.wireless_fw_info s = none ↔
      s.tl_device_info_table.wireless_fw_info_table.version = 0) ∧
    (s.tl_device_info_table.wireless_fw_info_table.version ≠ 0 →
      TlMbox.wireless_fw_info s =
        some s.tl_device_info_table.wireless_fw_info_table) ∧
    TlMbox.wireless_fw_info (TlMbox.init s).fst = none := by
  intro s
  refine ⟨?_, ?_, ?_⟩
  · by_cases h : s.tl_device_info_table.wireless_fw_info_table.version = 0
    · simp [TlMbox.wireless_fw_info, h]
    · simp [TlMbox.wireless_fw_info, h]
  · intro h
    simp [TlMbox.wireless_fw_info, h]
  · rfl

/-- C4 witness: at a concrete populated descriptor the copy is returned,
and after `init` from a concrete state the result is absent. -/
theorem C4_wireless_fw_info_iff_witness :
    TlMbox.wireless_fw_info mboxStateFwSample = some ⟨0x01020304, 0x10203040, 0, 0⟩ ∧
    TlMbox.wireless_fw_info (TlMbox.init mboxState0).fst = none :=
  ⟨(C4_wireless_fw_info_iff mboxStateFwSample).2.1 (by decide),
   (C4_wireless_fw_info_iff mboxState0).2.2⟩

/-- C5 counterexample: the claim states the reference table holds exactly
nine subtable pointers; the source struct (and the table `init` writes)
has ten pointer fields, one per subordinate table of its own list of ten
names. -/
theorem C5_counterexample :
    (RefTable.pointerFields ((TlMbox.init mboxState0).fst.tl_ref_table)).length = 10 ∧
    ¬ (RefTable.pointerFields ((TlMbox.init mboxState0).fst.tl_ref_table)).length = 9 :=
  ⟨rfl, by decide⟩

/-- C5 (amended): after `TlMbox::init` returns, the reference table holds
exactly the ten subtable pointers (device-info, BLE, thread, system,
memory-manager, traces, 802.15.4, zigbee, LLD-tests, BLE-LLD), each field
equal to the static address of its respective subordinate table, and no
other fields. -/
theorem C5_ref_table_amended : ∀ s : MboxState,
    (TlMbox.init s).fst.tl_ref_table.device_info_table = addrOf TlStatic.deviceInfoTable ∧
    (TlMbox.init s).fst.tl_ref_table.ble_table = addrOf TlStatic.bleTable ∧
    (TlMbox.init s).fst.tl_ref_table.thread_table = addrOf TlStatic.threadTable ∧
    (TlMbox.init s).fst.tl_ref_table.sys_table = addrOf TlStatic.sysTable ∧
    (TlMbox.init s).fst.tl_ref_table.mem_manager_table = addrOf TlStatic.memManagerTable ∧
    (TlMbox.init s).fst.tl_ref_table.traces_table = addrOf TlStatic.tracesTable ∧
    (TlMbox.init s).fst.tl_ref_table.mac_802_15_4_table = addrOf TlStatic.mac802_15_4Table ∧
    (TlMbox.init s).fst.tl_ref_table.zigbee_table = addrOf TlStatic.zigbeeTable ∧
    (TlMbox.init s).fst.tl_ref_table.lld_tests_table = addrOf TlStatic.lldTestsTable ∧
    (TlMbox.init s).fst.tl_ref_table.ble_lld_table = addrOf TlStatic.bleLldTable ∧
    (RefTable.pointerFields ((TlMbox.init s).fst.tl_ref_table)).length = 10 := by
  intro s
  exact ⟨rfl, rfl, rfl, rfl, rfl, rfl, rfl, rfl, rfl, rfl, rfl⟩

/-- C6 counterexample: the claim states the reference-table entries for
the unused subtables are kept as null pointers; after `init` from a
concrete state the thread-table entry equals the static address of
`TL_THREAD_TABLE`, which is not the null pointer. -/
theorem C6_counterexample :
    (TlMbox.init mboxState0).fst.tl_ref_table.thread_table = addrOf TlStatic.threadTable ∧
    addrOf TlStatic.threadTable ≠ 0 :=
  ⟨rfl, by decide⟩

/-- C6 (amended): after `TlMbox::init` returns, the reference-table
entries for the unused subtables (thread, traces, 802.15.4, zigbee,
LLD-tests, BLE-LLD) are present non-null pointers to their statically
allocated tables, while the unused subtables themselves are left
zero-filled. -/
theorem C6_unused_tables_amended : ∀ s : MboxState,
    ((TlMbox.init s).fst.tl_ref_table.thread_table = addrOf TlStatic.threadTable ∧
      addrOf TlStatic.threadTable ≠ 0 ∧
      (TlMbox.init s).fst.tl_thread_table = ThreadTable.zeroed) ∧
    ((TlMbox.init s).fst.tl_ref_table.traces_table = addrOf TlStatic.tracesTable ∧
      addrOf TlStatic.tracesTable ≠ 0 ∧
      (TlMbox.init s).fst.tl_traces_table = TracesTable.zeroed) ∧
    ((TlMbox.init s).fst.tl_ref_table.mac_802_15_4_table = addrOf TlStatic.mac802_15_4Table ∧
      addrOf TlStatic.mac802_15_4Table ≠ 0 ∧
      (TlMbox.init s).fst.tl_mac_802_15_4_table = Mac802_15_4Table.zeroed) ∧
    ((TlMbox.init s).fst.tl_ref_table.zigbee_table = addrOf TlStatic.zigbeeTable ∧
      addrOf TlStatic.zigbeeTable ≠ 0 ∧
      (TlMbox.init s).fst.tl_zigbee_table = ZigbeeTable.zeroed) ∧
    ((TlMbox.init s).fst.tl_ref_table.lld_tests_table = addrOf TlStatic.lldTestsTable ∧
      addrOf TlStatic.lldTestsTable ≠ 0 ∧
      (TlMbox.init s).fst.tl_lld_tests_table = LldTestTable.zeroed) ∧
    ((TlMbox.init s).fst.tl_ref_table.ble_lld_table = addrOf TlStatic.bleLldTable ∧
      addrOf TlStatic.bleLldTable ≠ 0 ∧
      (TlMbox.init s).fst.tl_ble_lld_table = BleLldTable.zeroed) := by
  intro s
  exact ⟨⟨rfl, by decide, rfl⟩, ⟨rfl, by decide, rfl⟩, ⟨rfl, by decide, rfl⟩,
    ⟨rfl, by decide, rfl⟩, ⟨rfl, by decide, rfl⟩, ⟨rfl, by decide, rfl⟩⟩

/-- C7: the zeroing block of `init` zeroes every MB_MEM1 descriptor table
(including SYS, BLE and MM, which the service constructors then
repopulate with fixed pointer values); after `init` returns, the
device-info table and the six unused tables are zero, the required
MB_MEM2 buffers (event pool, spare event buffers, command-status buffer,
BLE command buffer, ACL buffer) are zero-filled, and the sentinels of
`EVT_QUEUE`, `SYSTEM_EVT_QUEUE`, `FREE_BUFF_QUEUE` and the host-local
free list are well-defined self-referential rings. Every right-hand side
is a closed constant, so no bit of the result depends on the pre-`init`
state: no stale bits survive. -/
theorem C7_init_zeroing : ∀ s : MboxState,
    ((MboxState.zeroPhase s).tl_sys_table = SysTable.zeroed ∧
      (MboxState.zeroPhase s).tl_ble_table = BleTable.zeroed ∧
      (MboxState.zeroPhase s).tl_mem_manager_table = MemManagerTable.zeroed) ∧
    ((TlMbox.init s).fst.tl_device_info_table = DeviceInfoTable.zeroed ∧
      (TlMbox.init s).fst.tl_thread_table = ThreadTable.zeroed ∧
      (TlMbox.init s).fst.tl_traces_table = TracesTable.zeroed ∧
      (TlMbox.init s).fst.tl_mac_802_15_4_table = Mac802_15_4Table.zeroed ∧
      (TlMbox.init s).fst.tl_zigbee_table = ZigbeeTable.zeroed ∧
      (TlMbox.init s).fst.tl_lld_tests_table = LldTestTable.zeroed ∧
      (TlMbox.init s).fst.tl_ble_lld_table = BleLldTable.zeroed) ∧
    ((TlMbox.init s).fst.evt_pool = List.replicate POOL_SIZE 0 ∧
      (TlMbox.init s).fst.sys_spare_evt_buf = List.replicate SPARE_EVT_BUF_SIZE 0 ∧
      (TlMbox.init s).fst.ble_spare_evt_buf = List.replicate SPARE_EVT_BUF_SIZE 0 ∧
      (TlMbox.init s).fst.cs_buffer = List.replicate CS_BUFFER_SIZE 0 ∧
      (TlMbox.init s).fst.ble_cmd_buffer = CmdPacket.zeroed ∧
      (TlMbox.init s).fst.hci_acl_data_buffer = List.replicate HCI_ACL_DATA_BUFFER_SIZE 0) ∧
    ((TlMbox.init s).fst.evt_queue = LinkedListNode.selfRing (addrOf TlStatic.evtQueue) ∧
      (TlMbox.init s).fst.system_evt_queue =
        LinkedListNode.selfRing (addrOf TlStatic.systemEvtQueue) ∧
      (TlMbox.init s).fst.free_buff_queue =
        LinkedListNode.selfRing (addrOf TlStatic.freeBuffQueue) ∧
      (TlMbox.init s).fst.local_free_buf_queue =
        LinkedListNode.selfRing (addrOf TlStatic.localFreeBufQueue)) := by
  intro s
  exact ⟨⟨rfl, rfl, rfl⟩, ⟨rfl, rfl, rfl, rfl, rfl, rfl, rfl⟩,
    ⟨rfl, rfl, rfl, rfl, rfl, rfl⟩, ⟨rfl, rfl, rfl, rfl⟩⟩

/-- C8 counterexample: the claim states `init` enforces a one-shot guard
so that a second call cannot produce a second instance. `init` has no
guard: starting from a concrete world with no instance constructed,
calling `init` twice completes both times and constructs two `TlMbox`
values. -/
theorem C8_counterexample :
    ((TlMbox.initCounted (TlMbox.initCounted ⟨mboxState0, 0⟩).fst).fst).constructed = 2 ∧
    ¬ ((TlMbox.initCounted (TlMbox.initCounted ⟨mboxState0, 0⟩).fst).fst).constructed ≤ 1 :=
  ⟨rfl, by decide⟩

/-- C8 (amended): `TlMbox::init` has no one-shot guard: every call runs
the initialization body unconditionally and constructs and returns one
more `TlMbox` instance, so a second call produces a second instance. -/
theorem C8_no_guard_amended : ∀ w : TlWorld,
    ((TlMbox.initCounted w).fst).constructed = w.constructed + 1 ∧
    (TlMbox.initCounted w).snd = TlMbox.mk () () () := by
  intro w
  exact ⟨rfl, rfl⟩

/-- C9: the event pool created by `init` is a byte region of length
`POOL_SIZE = CFG_TL_BLE_EVT_QUEUE_LENGTH * 4 * divc(TL_PACKET_HEADER_SIZE
+ TL_BLE_EVENT_FRAME_SIZE, 4)` with queue length 5, event frame size
3 + 255, and the 8-byte packet header of the 32-bit target, which
evaluates to 1340 bytes. -/
theorem C9_pool_size : ∀ s : MboxState,
    ((TlMbox.init s).fst.evt_pool).length = POOL_SIZE ∧
    POOL_SIZE = CFG_TL_BLE_EVT_QUEUE_LENGTH * 4 *
      divc (TL_PACKET_HEADER_SIZE + TL_BLE_EVENT_FRAME_SIZE) 4 ∧
    TL_BLE_EVENT_FRAME_SIZE = TL_EVT_HEADER_SIZE + CFG_TL_BLE_MOST_EVENT_PAYLOAD_SIZE ∧
    CFG_TL_BLE_EVT_QUEUE_LENGTH = 5 ∧
    CFG_TL_BLE_MOST_EVENT_PAYLOAD_SIZE = 255 ∧
    TL_PACKET_HEADER_SIZE = 8 ∧
    POOL_SIZE = 1340 := by
  intro s
  refine ⟨?_, rfl, rfl, rfl, rfl, rfl, by decide⟩
  show (List.replicate POOL_SIZE 0).length = POOL_SIZE
  exact List.length_replicate _ _

/-- C10: the single reserved ACL data buffer created by `init` has the
fixed size `TL_PACKET_HEADER_SIZE + 5 + 251` bytes, where 5 bytes cover
the kind, handle and length fields of an ACL packet, so the largest ACL
payload the buffer can hold is 251 bytes, far below the range of the
packet's 16-bit length field. -/
theorem C10_acl_buffer_size : ∀ s : MboxState,
    ((TlMbox.init s).fst.hci_acl_data_buffer).length = HCI_ACL_DATA_BUFFER_SIZE ∧
    HCI_ACL_DATA_BUFFER_SIZE = TL_PACKET_HEADER_SIZE + ACL_KIND_HANDLE_LENGTH_SIZE + 251 ∧
    ACL_KIND_HANDLE_LENGTH_SIZE = 1 + 2 + 2 ∧
    HCI_ACL_DATA_BUFFER_SIZE - TL_PACKET_HEADER_SIZE - ACL_KIND_HANDLE_LENGTH_SIZE = 251 ∧
    251 < 2 ^ 16 := by
  intro s
  refine ⟨?_, by decide, rfl, by decide, by decide⟩
  show (List.replicate HCI_ACL_DATA_BUFFER_SIZE 0).length = HCI_ACL_DATA_BUFFER_SIZE
  exact List.length_replicate _ _
